import Mathlib

/-!
Shallow embedding of the appointment-scheduling core of the EMR appointment
system (backend/appointment_service.py on top of backend/db.py).

The relational store is modelled as a list of appointment rows in insertion
order, together with a flag saying whether store access raises (the code's
`except` branches around `execute_query` / `execute_mutation`).  Each Python
service function becomes a pure Lean function from the store (and its other
arguments) to a result record and the resulting store; a function that the
source leaves unchanged on failure returns the store unchanged.
-/

namespace EMR

/-- A row of the `appointments` table, field names as in the source
(`patient_name`, `doctor_name`, ...).  `date` and `time` are kept as the
strings the service layer sees (`date.isoformat()` / `str(time)`), `duration`
is the integer minute count. -/
structure Appointment where
  id : String
  patient_name : String
  doctor_name : String
  date : String
  time : String
  duration : Int
  status : String
  mode : String
  notes : String
  deriving Repr, DecidableEq

/-- The store: rows in insertion order (`created_at` ascending), plus a flag
modelling a store whose queries and mutations raise (dead connection even
after the retry in db.py). -/
structure Db where
  rows : List Appointment
  queryFails : Bool
  deriving Repr, DecidableEq

/-- Python `s.split(':')` on the underlying character list (an executable
equivalent of `String.splitOn ":"`): splitting the empty string gives `[""]`,
and a string with no colon gives the one-element list holding it. -/
def splitColonChars : List Char → List (List Char)
  | [] => [[]]
  | c :: rest =>
    if c = ':' then [] :: splitColonChars rest
    else
      match splitColonChars rest with
      | h :: t => (c :: h) :: t
      | [] => [[c]]

/-- Python `s.split(':')`. -/
def pySplit (s : String) : List String :=
  (splitColonChars s.data).map List.asString

/-- Python `s[:n]`. -/
def pyTake (s : String) (n : Nat) : String :=
  ⟨s.data.take n⟩

/-- The value of a decimal digit character, `none` for any other character. -/
def digit? (c : Char) : Option Nat :=
  if '0' ≤ c ∧ c ≤ '9' then some (c.toNat - '0'.toNat) else none

/-- Decimal value of a digit run, left to right. -/
def digitsValAux : Nat → List Char → Option Nat
  | acc, [] => some acc
  | acc, c :: rest =>
    match digit? c with
    | some d => digitsValAux (acc * 10 + d) rest
    | none => none

/-- Decimal value of a non-empty digit run; `none` on the empty list or on any
non-digit. -/
def digitsVal? (cs : List Char) : Option Nat :=
  match cs with
  | [] => none
  | _ => digitsValAux 0 cs

/-- Python `int(s)` on signed decimal strings: an optional sign followed by at
least one digit; `none` where `int` raises `ValueError`. -/
def pyInt? (s : String) : Option Int :=
  match s.data with
  | '-' :: rest => (digitsVal? rest).map (fun n => -(n : Int))
  | '+' :: rest => (digitsVal? rest).map (fun n => (n : Int))
  | cs => (digitsVal? cs).map (fun n => (n : Int))

/-- Python `time.split(':')` followed by `int(parts[0]) * 60 + int(parts[1])`:
`none` where the Python raises (`IndexError` on a string with no colon,
`ValueError` from `int`). -/
def minutesOfTime (t : String) : Option Int :=
  match pySplit t with
  | h :: m :: _ =>
    match pyInt? h, pyInt? m with
    | some hh, some mm => some (hh * 60 + mm)
    | _, _ => none
  | _ => none

/-- Result dict of `validate_appointment_time`. -/
structure TimeValidation where
  valid : Bool
  message : Option String
  deriving Repr, DecidableEq

/-- `validate_appointment_time`: `hour = int(time_str.split(':')[0])`, invalid
when `hour < 8 or hour >= 21`; any parse exception is caught and reported as
an invalid time format. -/
def validate_appointment_time (time_str : String) : TimeValidation :=
  match pyInt? ((pySplit time_str).headD "") with
  | none => { valid := false, message := some "Invalid time format" }
  | some hour =>
    if hour < 8 ∨ 21 ≤ hour then
      { valid := false
        message := some "Appointments are only available between 8:00 AM and 9:00 PM" }
    else
      { valid := true, message := none }

/-- The rows returned by the conflict query of `check_time_slot_conflict`:
`WHERE doctor_name = %s AND date = %s AND status != 'Cancelled'` plus
`AND id != %s` when an id is excluded.  The query has no ORDER BY, so the rows
come back in store order. -/
def candidateRows (db : Db) (doctor_name date : String) (exclude_id : Option String) :
    List Appointment :=
  db.rows.filter fun a =>
    a.doctor_name == doctor_name && a.date == date && a.status != "Cancelled" &&
      (match exclude_id with
       | some i => a.id != i
       | none => true)

/-- The loop body's overlap test `start < otherEnd and end > otherStart`
applied to one existing row (false where its time does not even parse;
`findOverlap` treats that case as the raised exception instead). -/
def overlapsCandidate (start_minutes end_minutes : Int) (a : Appointment) : Bool :=
  match minutesOfTime (pyTake a.time 5) with
  | some apt_start =>
    decide (start_minutes < apt_start + a.duration) && decide (end_minutes > apt_start)
  | none => false

/-- The scan loop of `check_time_slot_conflict`: first row whose interval
overlaps the candidate interval, in query-result order; a row whose stored
time fails to parse raises (propagated to the function's `except`). -/
def findOverlap (start_minutes end_minutes : Int) :
    List Appointment → Except String (Option Appointment)
  | [] => Except.ok none
  | apt :: rest =>
    match minutesOfTime (pyTake apt.time 5) with
    | none => Except.error "invalid literal for int()"
    | some apt_start =>
      if start_minutes < apt_start + apt.duration ∧ end_minutes > apt_start then
        Except.ok (some apt)
      else
        findOverlap start_minutes end_minutes rest

/-- Python `f"{n:02d}"`: zero-pad to two characters. -/
def pad2 (n : Int) : String :=
  if 0 ≤ n ∧ n < 10 then "0" ++ toString n else toString n

/-- End-time formatting `f"{m // 60:02d}:{m % 60:02d}"` (Python floor
division and modulo). -/
def formatMinutes (m : Int) : String :=
  pad2 (m.ediv 60) ++ ":" ++ pad2 (m.emod 60)

/-- The `conflicting_appointment` dict built for a conflicting row. -/
structure ConflictInfo where
  patient : String
  time : String
  endTime : String
  duration : Int
  deriving Repr, DecidableEq

/-- Result dict of `check_time_slot_conflict`. -/
structure SlotCheck where
  available : Bool
  message : Option String
  conflicting_appointment : Option ConflictInfo
  deriving Repr, DecidableEq

/-- The conflict payload for a row found by the scan (its time truncated to
`HH:MM`, its end formatted from its own parsed start). -/
def conflictInfoOf (apt : Appointment) : ConflictInfo :=
  let apt_time := pyTake apt.time 5
  let apt_start := (minutesOfTime apt_time).getD 0
  { patient := apt.patient_name
    time := apt_time
    endTime := formatMinutes (apt_start + apt.duration)
    duration := apt.duration }

/-- The human-readable conflict message built for a row found by the scan. -/
def conflictMessage (apt : Appointment) : String :=
  "This time slot is already booked! " ++ apt.patient_name ++
    " has an appointment from " ++ (conflictInfoOf apt).time ++ " to " ++
    (conflictInfoOf apt).endTime ++ ". Please choose a different time."

/-- `check_time_slot_conflict(doctor_name, date, time, duration, exclude_id)`:
parse the candidate time, query the non-cancelled rows for the doctor and
date, scan them for the first overlap; every exception (bad time string, store
failure, bad stored time) is caught and returned as `available = False` with
an error message. -/
def check_time_slot_conflict (db : Db) (doctor_name date time : String) (duration : Int)
    (exclude_id : Option String) : SlotCheck :=
  match minutesOfTime time with
  | none =>
    { available := false
      message := some "Error checking availability: invalid time"
      conflicting_appointment := none }
  | some start_minutes =>
    if db.queryFails then
      { available := false
        message := some "Error checking availability: database error"
        conflicting_appointment := none }
    else
      match findOverlap start_minutes (start_minutes + duration)
          (candidateRows db doctor_name date exclude_id) with
      | Except.error e =>
        { available := false
          message := some ("Error checking availability: " ++ e)
          conflicting_appointment := none }
      | Except.ok none =>
        { available := true, message := none, conflicting_appointment := none }
      | Except.ok (some apt) =>
        { available := false
          message := some (conflictMessage apt)
          conflicting_appointment := some (conflictInfoOf apt) }

/-- The create payload after the HTTP layer's required-field check: `name`,
`doctorName`, `date`, `time`, `duration` present; `status`, `mode`, `notes`
optional (`data.get` defaults applied inside `create_appointment`). -/
structure CreateData where
  name : String
  doctorName : String
  date : String
  time : String
  duration : Int
  status : Option String
  mode : Option String
  notes : Option String
  deriving Repr, DecidableEq

/-- Result dict shared by create / update / delete. -/
structure MutationResult where
  success : Bool
  message : String
  data : Option Appointment
  conflict : Option ConflictInfo
  deriving Repr, DecidableEq

/-- `create_appointment(data)`: business-hours validation, then the conflict
check, then INSERT (new row appended, fresh store-generated id), then re-read
of the just-inserted row by `patient_name`/`date`/`time` ordered by
`created_at DESC LIMIT 1` — the newest matching row, i.e. the last in store
order. -/
def create_appointment (db : Db) (fresh_id : String) (data : CreateData) :
    MutationResult × Db :=
  let tv := validate_appointment_time data.time
  if tv.valid = false then
    ({ success := false, message := tv.message.getD "", data := none, conflict := none }, db)
  else
    let cc := check_time_slot_conflict db data.doctorName data.date data.time data.duration none
    if cc.available = false then
      ({ success := false, message := cc.message.getD ""
         data := none, conflict := cc.conflicting_appointment }, db)
    else
      let newApt : Appointment :=
        { id := fresh_id
          patient_name := data.name
          doctor_name := data.doctorName
          date := data.date
          time := data.time
          duration := data.duration
          status := data.status.getD "Scheduled"
          mode := data.mode.getD "In-Person"
          notes := data.notes.getD "" }
      let db' : Db := { db with rows := db.rows ++ [newApt] }
      let created := db'.rows.filter fun a =>
        a.patient_name == data.name && a.date == data.date && a.time == data.time
      match created.getLast? with
      | some apt =>
        ({ success := true, message := "Appointment created successfully"
           data := some apt, conflict := none }, db')
      | none =>
        ({ success := false, message := "Failed to create appointment"
           data := none, conflict := none }, db')

/-- `delete_appointment(appointment_id)`: SELECT the row (not-found failure if
absent), DELETE by id, return the pre-delete snapshot (`result[0]`). -/
def delete_appointment (db : Db) (appointment_id : String) : MutationResult × Db :=
  if db.queryFails then
    ({ success := false, message := "Error deleting appointment: database error"
       data := none, conflict := none }, db)
  else
    match db.rows.filter (fun a => a.id == appointment_id) with
    | [] =>
      ({ success := false, message := "Appointment not found"
         data := none, conflict := none }, db)
    | apt :: rest =>
      let deleted_count := (apt :: rest).length
      if deleted_count > 0 then
        ({ success := true, message := "Appointment deleted successfully"
           data := some apt, conflict := none },
         { db with rows := db.rows.filter (fun a => a.id != appointment_id) })
      else
        ({ success := false, message := "Failed to delete appointment"
           data := none, conflict := none }, db)

/-- An update payload: any subset of the mutable fields may be present. -/
structure UpdateData where
  name : Option String
  doctorName : Option String
  date : Option String
  time : Option String
  duration : Option Int
  status : Option String
  mode : Option String
  notes : Option String
  deriving Repr, DecidableEq

/-- The dynamic `UPDATE ... SET` built by `update_appointment`: each supplied
field overlaid on the stored row. -/
def applyPatch (data : UpdateData) (a : Appointment) : Appointment :=
  { a with
    patient_name := data.name.getD a.patient_name
    doctor_name := data.doctorName.getD a.doctor_name
    date := data.date.getD a.date
    time := data.time.getD a.time
    duration := data.duration.getD a.duration
    status := data.status.getD a.status
    mode := data.mode.getD a.mode
    notes := data.notes.getD a.notes }

/-- Whether any of `{time, date, doctorName, duration}` is present in the
payload, which is the source's condition for re-running the conflict check. -/
def scheduleTouched (data : UpdateData) : Bool :=
  data.time.isSome || data.date.isSome || data.doctorName.isSome || data.duration.isSome

/-- The merged conflict check `update_appointment` runs: supplied values
overlaid on the stored row (`data.get(key, existing value)`, the stored time
truncated to `HH:MM`), excluding the row's own id. -/
def mergedCheck (db : Db) (appointment_id : String) (data : UpdateData)
    (existing : Appointment) : SlotCheck :=
  check_time_slot_conflict db
    (data.doctorName.getD existing.doctor_name)
    (data.date.getD existing.date)
    (data.time.getD (pyTake existing.time 5))
    (data.duration.getD existing.duration)
    (some appointment_id)

/-- `update_appointment(appointment_id, data)`: SELECT the row (not-found if
absent), validate business hours when `time` is supplied, re-run the conflict
check on the merged view when any schedule field is supplied, apply the
supplied fields as a dynamic column set, re-read and return the updated row.
A raising store is caught by the outer `except` with no patch applied. -/
def update_appointment (db : Db) (appointment_id : String) (data : UpdateData) :
    MutationResult × Db :=
  if db.queryFails then
    ({ success := false, message := "Error updating appointment: database error"
       data := none, conflict := none }, db)
  else
    match db.rows.filter (fun a => a.id == appointment_id) with
    | [] =>
      ({ success := false, message := "Appointment not found"
         data := none, conflict := none }, db)
    | existing :: _ =>
      let tv :=
        match data.time with
        | some t => validate_appointment_time t
        | none => { valid := true, message := none }
      if tv.valid = false then
        ({ success := false, message := tv.message.getD "", data := none, conflict := none }, db)
      else
        let cc :=
          if scheduleTouched data then
            mergedCheck db appointment_id data existing
          else
            { available := true, message := none, conflicting_appointment := none }
        if cc.available = false then
          ({ success := false, message := cc.message.getD ""
             data := none, conflict := cc.conflicting_appointment }, db)
        else
          let db' : Db :=
            { db with rows := db.rows.map fun a =>
                if a.id == appointment_id then applyPatch data a else a }
          match db'.rows.filter (fun a => a.id == appointment_id) with
          | apt :: _ =>
            ({ success := true, message := "Appointment updated successfully"
               data := some apt, conflict := none }, db')
          | [] =>
            ({ success := false, message := "Failed to update appointment"
               data := none, conflict := none }, db')

/-- The allowed values of the status-only update. -/
def valid_statuses : List String := ["Confirmed", "Scheduled", "Upcoming", "Cancelled"]

/-- Result dict of `update_appointment_status`. -/
structure StatusResult where
  success : Bool
  message : String
  id : String
  status : Option String
  timestamp : Option String
  deriving Repr, DecidableEq

/-- `update_appointment_status(appointment_id, new_status)`: reject a status
outside the four allowed values before touching the store; otherwise UPDATE
`status` and `updated_at` by id in one statement, not-found when zero rows are
affected, else success carrying the new status and `datetime.now()` (passed in
as `now`).  A raising store is caught and reported as a failure. -/
def update_appointment_status (now : String) (db : Db) (appointment_id new_status : String) :
    StatusResult × Db :=
  if ¬ valid_statuses.contains new_status then
    ({ success := false
       message := "Invalid status. Must be one of: Confirmed, Scheduled, Upcoming, Cancelled"
       id := appointment_id, status := none, timestamp := none }, db)
  else if db.queryFails then
    ({ success := false, message := "Error updating appointment: database error"
       id := appointment_id, status := none, timestamp := none }, db)
  else
    let affected := (db.rows.filter (fun a => a.id == appointment_id)).length
    if affected > 0 then
      ({ success := true
         message := "Appointment status updated to " ++ new_status
         id := appointment_id, status := some new_status, timestamp := some now },
       { db with rows := db.rows.map fun a =>
           if a.id == appointment_id then { a with status := new_status } else a })
    else
      ({ success := false, message := "Appointment not found: " ++ appointment_id
         id := appointment_id, status := none, timestamp := none }, db)

/-! Concrete fixtures used by witnesses and counterexamples. -/

/-- A stored appointment 09:00 + 30 min (the store keeps `HH:MM:SS`). -/
def alice : Appointment :=
  { id := "1", patient_name := "Alice", doctor_name := "Dr. Smith", date := "2025-12-15",
    time := "09:00:00", duration := 30, status := "Scheduled", mode := "In-Person", notes := "" }

/-- A healthy store holding only `alice`. -/
def db1 : Db := { rows := [alice], queryFails := false }

/-- A healthy empty store. -/
def emptyDb : Db := { rows := [], queryFails := false }

/-- An update payload supplying only `duration`. -/
def durationOnly (d : Int) : UpdateData :=
  { name := none, doctorName := none, date := none, time := none,
    duration := some d, status := none, mode := none, notes := none }

/-! Helper lemmas about the scan loop. -/

theorem findOverlap_mem {s e : Int} {l : List Appointment} {apt : Appointment}
    (h : findOverlap s e l = Except.ok (some apt)) : apt ∈ l := by
  induction l with
  | nil => simp [findOverlap] at h
  | cons b rest ih =>
    rw [findOverlap] at h
    split at h
    · exact absurd h (by simp)
    · split at h
      · obtain rfl : b = apt := by simpa using h
        exact List.mem_cons_self ..
      · exact List.mem_cons_of_mem _ (ih h)

theorem findOverlap_eq_find (s e : Int) (l : List Appointment)
    (hall : ∀ a ∈ l, (minutesOfTime (pyTake a.time 5)).isSome = true) :
    findOverlap s e l = Except.ok (l.find? (overlapsCandidate s e)) := by
  induction l with
  | nil => rfl
  | cons b rest ih =>
    have h1 : (minutesOfTime (pyTake b.time 5)).isSome = true := hall b (by simp)
    obtain ⟨m, hm⟩ := Option.isSome_iff_exists.mp h1
    have hrest : ∀ a ∈ rest, (minutesOfTime (pyTake a.time 5)).isSome = true :=
      fun a ha => hall a (List.mem_cons_of_mem _ ha)
    by_cases hc : s < m + b.duration ∧ e > m
    · have hov : overlapsCandidate s e b = true := by
        rw [overlapsCandidate, hm]
        dsimp only
        simp [hc.1, hc.2]
      rw [findOverlap, hm]
      dsimp only
      rw [if_pos hc, List.find?_cons_of_pos _ hov]
    · have hov : overlapsCandidate s e b = false := by
        rw [overlapsCandidate, hm]
        dsimp only
        rcases Decidable.not_and_iff_or_not.mp hc with h | h <;> simp [h]
      rw [findOverlap, hm]
      dsimp only
      rw [if_neg hc, ih hrest, List.find?_cons_of_neg _ (by simp [hov])]

/-- Full behaviour of `check_time_slot_conflict` on a healthy store whose
relevant rows all have parseable times: the first overlap in query order, or
availability. -/
theorem check_spec (db : Db) (doctor date time : String) (dur : Int) (ex : Option String)
    (s : Int) (hp : minutesOfTime time = some s) (hq : db.queryFails = false)
    (hall : ∀ a ∈ candidateRows db doctor date ex,
      (minutesOfTime (pyTake a.time 5)).isSome = true) :
    check_time_slot_conflict db doctor date time dur ex =
      match (candidateRows db doctor date ex).find? (overlapsCandidate s (s + dur)) with
      | some apt =>
        { available := false, message := some (conflictMessage apt)
          conflicting_appointment := some (conflictInfoOf apt) }
      | none => { available := true, message := none, conflicting_appointment := none } := by
  rw [check_time_slot_conflict, hp]
  dsimp only
  rw [hq, if_neg Bool.false_ne_true, findOverlap_eq_find s (s + dur) _ hall]
  cases h : (candidateRows db doctor date ex).find? (overlapsCandidate s (s + dur)) <;> rfl

/-- C1: with the candidate time parsed to `s` minutes and every relevant
stored time parseable, `check_time_slot_conflict` reports a conflict exactly
when some non-cancelled appointment of the same doctor and date overlaps the
half-open interval `[s, s + duration)` under the test
`start < otherEnd and end > otherStart`. -/
theorem C1_overlap_iff (db : Db) (doctor date time : String) (dur s : Int)
    (hp : minutesOfTime time = some s) (hq : db.queryFails = false)
    (hall : ∀ a ∈ candidateRows db doctor date none,
      (minutesOfTime (pyTake a.time 5)).isSome = true) :
    (check_time_slot_conflict db doctor date time dur none).available
      = !(candidateRows db doctor date none).any (overlapsCandidate s (s + dur)) := by
  rw [check_spec db doctor date time dur none s hp hq hall]
  cases hf : (candidateRows db doctor date none).find? (overlapsCandidate s (s + dur)) with
  | none =>
    have : (candidateRows db doctor date none).any (overlapsCandidate s (s + dur)) = false := by
      rw [List.any_eq_false]
      intro a ha
      exact fun hpa => (List.find?_eq_none.mp hf a ha) hpa
    simp [this]
  | some apt =>
    have : (candidateRows db doctor date none).any (overlapsCandidate s (s + dur)) = true := by
      rw [List.any_eq_true]
      exact ⟨apt, List.mem_of_find?_eq_some hf, List.find?_some hf⟩
    simp [this]

/-- C1 witness: an existing 09:00 + 30 booking does not conflict with a new
09:30 booking but does conflict with a new 09:29 booking. -/
theorem C1_overlap_iff_witness :
    (check_time_slot_conflict db1 "Dr. Smith" "2025-12-15" "09:30" 15 none).available = true ∧
    (check_time_slot_conflict db1 "Dr. Smith" "2025-12-15" "09:29" 15 none).available = false := by
  constructor
  · rw [C1_overlap_iff db1 "Dr. Smith" "2025-12-15" "09:30" 15 570 (by decide) (by decide)
      (by decide)]
    decide
  · rw [C1_overlap_iff db1 "Dr. Smith" "2025-12-15" "09:29" 15 569 (by decide) (by decide)
      (by decide)]
    decide

/-- C2: business-hours validation looks only at the parsed hour component —
valid exactly when `8 ≤ hour < 21` — so 08:00 and 20:59 pass, 07:59 and 21:00
fail, and a 20:45 + 30 min creation is accepted even though it runs past
21:00, since no duration is consulted. -/
theorem C2_business_hours :
    (∀ t h, pyInt? ((pySplit t).headD "") = some h →
      (validate_appointment_time t).valid = decide (8 ≤ h ∧ h < 21)) ∧
    (validate_appointment_time "08:00").valid = true ∧
    (validate_appointment_time "20:59").valid = true ∧
    (validate_appointment_time "07:59").valid = false ∧
    (validate_appointment_time "21:00").valid = false ∧
    (create_appointment emptyDb "1"
      { name := "Bob", doctorName := "Dr. Smith", date := "2025-12-15", time := "20:45",
        duration := 30, status := none, mode := none, notes := none }).fst.success = true := by
  refine ⟨?_, by decide, by decide, by decide, by decide, by decide⟩
  intro t h hp
  rw [validate_appointment_time, hp]
  dsimp only
  by_cases hc : h < 8 ∨ 21 ≤ h
  · rw [if_pos hc]
    have hn : ¬(8 ≤ h ∧ h < 21) := by omega
    simp [hn]
  · rw [if_neg hc]
    have hy : 8 ≤ h ∧ h < 21 := by omega
    simp [hy]

/-- A creation whose time passes validation and parses, against a healthy
store holding no candidate row for its doctor and date, succeeds. -/
theorem create_succeeds (db : Db) (fresh : String) (d : CreateData)
    (hq : db.queryFails = false)
    (hv : (validate_appointment_time d.time).valid = true)
    (hp : (minutesOfTime d.time).isSome = true)
    (hempty : candidateRows db d.doctorName d.date none = []) :
    (create_appointment db fresh d).fst.success = true := by
  obtain ⟨s, hs⟩ := Option.isSome_iff_exists.mp hp
  have hall : ∀ a ∈ candidateRows db d.doctorName d.date none,
      (minutesOfTime (pyTake a.time 5)).isSome = true := by
    rw [hempty]
    intro a ha
    exact absurd ha (List.not_mem_nil a)
  have hcc := check_spec db d.doctorName d.date d.time d.duration none s hs hq hall
  rw [hempty] at hcc
  simp only [List.find?_nil] at hcc
  rw [create_appointment]
  simp [hv, hcc, List.filter_append, List.getLast?_concat]

/-- The second projection of the status-only update: a healthy store keeps its
health flag, and after cancelling `aid` every remaining active row for a given
doctor and date is a row that was already active with a different id. -/
theorem cancel_empties_candidates (now aid doctor date : String) (db : Db)
    (hq : db.queryFails = false)
    (hall : ∀ a ∈ db.rows, a.doctor_name = doctor → a.date = date →
      a.status ≠ "Cancelled" → a.id = aid) :
    (update_appointment_status now db aid "Cancelled").snd.queryFails = false ∧
    candidateRows (update_appointment_status now db aid "Cancelled").snd doctor date none
      = [] := by
  rw [update_appointment_status]
  rw [if_neg (by decide : ¬¬(valid_statuses.contains "Cancelled" = true))]
  rw [if_neg (by simp [hq] : ¬(db.queryFails = true))]
  dsimp only
  by_cases haff : (db.rows.filter (fun a => a.id == aid)).length > 0
  · rw [if_pos haff]
    dsimp only
    refine ⟨hq, ?_⟩
    rw [candidateRows]
    dsimp only
    rw [List.filter_eq_nil_iff]
    intro a ha
    obtain ⟨b, hb, rfl⟩ := List.mem_map.mp ha
    by_cases hid : b.id == aid
    · rw [if_pos hid]
      simp
    · rw [if_neg hid]
      intro hpred
      simp only [Bool.and_eq_true, beq_iff_eq, bne_iff_ne] at hpred
      exact hid (by simp [hall b hb hpred.1.1.1 hpred.1.1.2 hpred.1.2])
  · rw [if_neg haff]
    dsimp only
    refine ⟨hq, ?_⟩
    rw [candidateRows]
    dsimp only
    rw [List.filter_eq_nil_iff]
    intro a ha hpred
    simp only [Bool.and_eq_true, beq_iff_eq, bne_iff_ne] at hpred
    have haid : a.id = aid := hall a ha hpred.1.1.1 hpred.1.1.2 hpred.1.2
    have hmem : a ∈ db.rows.filter (fun a => a.id == aid) :=
      List.mem_filter.mpr ⟨ha, by simp [haid]⟩
    exact haff (List.length_pos_of_mem hmem)

/-- C3: the conflict query keeps only rows with `status != 'Cancelled'`, so
once every active appointment of the doctor and date is the one being
cancelled, cancelling it by the status-only update lets a create at that
doctor, date and time succeed. -/
theorem C3_cancel_frees_slot (now fresh aid : String) (db : Db) (d : CreateData)
    (hq : db.queryFails = false)
    (hv : (validate_appointment_time d.time).valid = true)
    (hp : (minutesOfTime d.time).isSome = true)
    (hall : ∀ a ∈ db.rows, a.doctor_name = d.doctorName → a.date = d.date →
      a.status ≠ "Cancelled" → a.id = aid) :
    (create_appointment (update_appointment_status now db aid "Cancelled").snd
      fresh d).fst.success = true := by
  obtain ⟨hq2, hempty⟩ := cancel_empties_candidates now aid d.doctorName d.date db hq hall
  exact create_succeeds _ fresh d hq2 hv hp hempty

/-- The payload of the C3 witness: same doctor, date and slot as `alice`. -/
def bobData : CreateData :=
  { name := "Bob", doctorName := "Dr. Smith", date := "2025-12-15", time := "09:00",
    duration := 30, status := none, mode := none, notes := none }

/-- C3 witness: cancel Alice's 09:00 booking, then create Bob at 09:00 for the
same doctor and date. -/
theorem C3_cancel_frees_slot_witness :
    (create_appointment (update_appointment_status "T" db1 "1" "Cancelled").snd
      "2" bobData).fst.success = true :=
  C3_cancel_frees_slot "T" "2" "1" db1 bobData (by decide) (by decide) (by decide) (by decide)

/-- Any conflict reported by a check that excludes id `ex` is built from a
stored row whose id differs from `ex`. -/
theorem check_conflict_excludes (db : Db) (doctor date time : String) (dur : Int)
    (ex : String) (ci : ConflictInfo)
    (h : (check_time_slot_conflict db doctor date time dur (some ex)).conflicting_appointment
      = some ci) :
    ∃ a ∈ db.rows, a.id ≠ ex ∧ ci = conflictInfoOf a := by
  rw [check_time_slot_conflict] at h
  split at h
  · exact absurd h (by simp)
  · split at h
    · exact absurd h (by simp)
    · split at h
      · exact absurd h (by simp)
      · exact absurd h (by simp)
      · rename_i apt heq
        have hci : ci = conflictInfoOf apt := by
          have := h.symm
          simpa using this
        have hmem := findOverlap_mem heq
        rw [candidateRows] at hmem
        have hsplit := List.mem_filter.mp hmem
        refine ⟨apt, hsplit.1, ?_, hci⟩
        have hpred := hsplit.2
        simp only [Bool.and_eq_true, beq_iff_eq, bne_iff_ne] at hpred
        exact hpred.2

/-- Patching never rewrites the id column. -/
theorem applyPatch_id (data : UpdateData) (a : Appointment) :
    (applyPatch data a).id = a.id := rfl

/-- Filtering the patched store by id agrees with patching the filtered
rows. -/
theorem filter_id_map_patch (l : List Appointment) (aid : String) (data : UpdateData) :
    (l.map fun a => if a.id == aid then applyPatch data a else a).filter
        (fun a => a.id == aid)
      = (l.filter (fun a => a.id == aid)).map
          (fun a => if a.id == aid then applyPatch data a else a) := by
  rw [List.filter_map]
  congr 1
  apply List.filter_congr
  intro a _
  by_cases hid : a.id == aid
  · simp only [Function.comp_apply, if_pos hid, applyPatch_id]
  · simp only [Function.comp_apply, if_neg hid]

/-- C4: the duration-only update re-runs the conflict check on the merged
view excluding the row's own id — so it succeeds when no other active row
shares the doctor and date, and any conflict it could report comes from a row
with a different id, never from the row itself. -/
theorem C4_update_excludes_self (db : Db) (aid : String) (apt : Appointment)
    (rest : List Appointment) (d' : Int)
    (hq : db.queryFails = false)
    (hfilter : db.rows.filter (fun a => a.id == aid) = apt :: rest)
    (hp : (minutesOfTime (pyTake apt.time 5)).isSome = true)
    (honly : ∀ a ∈ db.rows, a.id ≠ aid →
      ¬(a.doctor_name = apt.doctor_name ∧ a.date = apt.date ∧ a.status ≠ "Cancelled")) :
    (update_appointment db aid (durationOnly d')).fst.success = true ∧
    ∀ (db2 : Db) (ci : ConflictInfo),
      (update_appointment db2 aid (durationOnly d')).fst.conflict = some ci →
      ∃ a ∈ db2.rows, a.id ≠ aid ∧ ci = conflictInfoOf a := by
  constructor
  · have hempty : candidateRows db apt.doctor_name apt.date (some aid) = [] := by
      rw [candidateRows, List.filter_eq_nil_iff]
      intro a ha hpred
      simp only [Bool.and_eq_true, beq_iff_eq, bne_iff_ne] at hpred
      exact honly a ha hpred.2 ⟨hpred.1.1.1, hpred.1.1.2, hpred.1.2⟩
    obtain ⟨s, hs⟩ := Option.isSome_iff_exists.mp hp
    have hcc : check_time_slot_conflict db apt.doctor_name apt.date (pyTake apt.time 5)
        d' (some aid) = { available := true, message := none, conflicting_appointment := none } := by
      rw [check_spec db apt.doctor_name apt.date (pyTake apt.time 5) d' (some aid) s hs hq
        (by rw [hempty]; intro a ha; exact absurd ha (List.not_mem_nil a))]
      rw [hempty]
      simp only [List.find?_nil]
    rw [update_appointment, if_neg (by simp [hq]), hfilter]
    dsimp only
    rw [filter_id_map_patch, hfilter]
    simp [durationOnly, scheduleTouched, mergedCheck, hcc]
  · intro db2 ci h
    simp only [update_appointment] at h
    split at h
    · exact absurd h (by simp)
    · split at h
      · exact absurd h (by simp)
      · split at h
        · exact absurd h (by simp)
        · rename_i existing rest0 heq htv
          by_cases hst : scheduleTouched (durationOnly d') = true
          · rw [if_pos hst] at h
            split at h
            · have h' : (mergedCheck db2 aid (durationOnly d') existing).conflicting_appointment
                  = some ci := by simpa using h
              rw [mergedCheck] at h'
              exact check_conflict_excludes db2 _ _ _ _ aid ci h'
            · split at h <;> exact absurd h (by simp)
          · rw [if_neg hst] at h
            rw [if_neg (by simp)] at h
            split at h <;> exact absurd h (by simp)

/-- C4 witness: updating only Alice's duration does not conflict with her own
row. -/
theorem C4_update_excludes_self_witness :
    (update_appointment db1 "1" (durationOnly 60)).fst.success = true :=
  (C4_update_excludes_self db1 "1" alice [] 60 (by decide) (by decide) (by decide)
    (by decide)).1

/-- C5: the status-only update rejects a status outside the four allowed
values before touching the store (no success, no status, store unchanged —
for every store, healthy or failing); for an allowed status on a healthy
store it is not-found exactly when no row carries the id, and otherwise
succeeds, returning the new status and the clock value, with exactly the
matching rows' status rewritten. -/
theorem C5_status_update (now : String) (db : Db) (aid st : String) :
    (valid_statuses.contains st = false →
      (update_appointment_status now db aid st).fst.success = false ∧
      (update_appointment_status now db aid st).fst.status = none ∧
      (update_appointment_status now db aid st).snd = db) ∧
    (valid_statuses.contains st = true → db.queryFails = false →
      ((db.rows.filter (fun a => a.id == aid)).length = 0 →
        (update_appointment_status now db aid st).fst.success = false ∧
        (update_appointment_status now db aid st).snd = db) ∧
      ((db.rows.filter (fun a => a.id == aid)).length > 0 →
        (update_appointment_status now db aid st).fst.success = true ∧
        (update_appointment_status now db aid st).fst.status = some st ∧
        (update_appointment_status now db aid st).fst.timestamp = some now ∧
        (update_appointment_status now db aid st).snd.rows =
          db.rows.map (fun a => if a.id == aid then { a with status := st } else a))) := by
  constructor
  · intro hbad
    rw [update_appointment_status, if_pos (by rw [hbad]; decide)]
    exact ⟨rfl, rfl, rfl⟩
  · intro hok hq
    constructor
    · intro hzero
      rw [update_appointment_status, if_neg (by rw [hok]; decide), if_neg (by simp [hq])]
      dsimp only
      rw [if_neg (by omega)]
      exact ⟨rfl, rfl⟩
    · intro hpos
      rw [update_appointment_status, if_neg (by rw [hok]; decide), if_neg (by simp [hq])]
      dsimp only
      rw [if_pos hpos]
      exact ⟨rfl, rfl, rfl, rfl⟩

/-- C5 witness: a bogus status is rejected with the store untouched, and a
valid status on an existing row succeeds with the new status and timestamp. -/
theorem C5_status_update_witness :
    ((update_appointment_status "T" db1 "1" "Weird").snd = db1 ∧
      (update_appointment_status "T" db1 "1" "Weird").fst.success = false) ∧
    ((update_appointment_status "T" db1 "1" "Confirmed").fst.status = some "Confirmed" ∧
      (update_appointment_status "T" db1 "1" "Confirmed").fst.timestamp = some "T") := by
  constructor
  · exact ⟨((C5_status_update "T" db1 "1" "Weird").1 (by decide)).2.2,
      ((C5_status_update "T" db1 "1" "Weird").1 (by decide)).1⟩
  · exact ⟨(((C5_status_update "T" db1 "1" "Confirmed").2 (by decide) rfl).2 (by decide)).2.1,
      (((C5_status_update "T" db1 "1" "Confirmed").2 (by decide) rfl).2 (by decide)).2.2.1⟩

/-- C9: delete on a healthy store fails as not-found and leaves the store
unchanged when no row carries the id; otherwise it succeeds, removes exactly
the rows with that id, and returns the first stored row with that id as the
pre-delete snapshot. -/
theorem C9_delete (db : Db) (aid : String) (hq : db.queryFails = false) :
    (db.rows.filter (fun a => a.id == aid) = [] →
      (delete_appointment db aid).fst.success = false ∧
      (delete_appointment db aid).snd = db) ∧
    (∀ apt rest, db.rows.filter (fun a => a.id == aid) = apt :: rest →
      (delete_appointment db aid).fst.success = true ∧
      (delete_appointment db aid).fst.data = some apt ∧
      (delete_appointment db aid).snd.rows = db.rows.filter (fun a => a.id != aid)) := by
  constructor
  · intro hnone
    rw [delete_appointment, if_neg (by simp [hq]), hnone]
    exact ⟨rfl, rfl⟩
  · intro apt rest hcons
    rw [delete_appointment, if_neg (by simp [hq]), hcons]
    dsimp only
    rw [if_pos (by simp : (apt :: rest).length > 0)]
    exact ⟨rfl, rfl, rfl⟩

/-- C9 witness: deleting Alice's id returns her row as the snapshot; deleting
a missing id fails and changes nothing. -/
theorem C9_delete_witness :
    ((delete_appointment db1 "1").fst.data = some alice ∧
      (delete_appointment db1 "1").fst.success = true) ∧
    ((delete_appointment db1 "2").fst.success = false ∧
      (delete_appointment db1 "2").snd = db1) := by
  constructor
  · exact ⟨((C9_delete db1 "1" rfl).2 alice [] (by decide)).2.1,
      ((C9_delete db1 "1" rfl).2 alice [] (by decide)).1⟩
  · exact ⟨((C9_delete db1 "2" rfl).1 (by decide)).1,
      ((C9_delete db1 "2" rfl).1 (by decide)).2⟩

/-- C10: the availability check never escapes its interface — an unparseable
candidate time or a raising store query both come back as
`available = False` with an error message — and whenever the check (or the
merged check of an update) is unavailable, create and update fail with the
store unchanged; a raising store likewise makes update fail with no patch. -/
theorem C10_check_total (db : Db) (doctor date time : String) (dur : Int)
    (ex : Option String) (fresh aid : String) (d : CreateData) (u : UpdateData) :
    (minutesOfTime time = none →
      (check_time_slot_conflict db doctor date time dur ex).available = false ∧
      (check_time_slot_conflict db doctor date time dur ex).message.isSome = true) ∧
    (db.queryFails = true →
      (check_time_slot_conflict db doctor date time dur ex).available = false ∧
      (check_time_slot_conflict db doctor date time dur ex).message.isSome = true) ∧
    ((check_time_slot_conflict db d.doctorName d.date d.time d.duration none).available
        = false →
      (create_appointment db fresh d).fst.success = false ∧
      (create_appointment db fresh d).snd = db) ∧
    (db.queryFails = true →
      (update_appointment db aid u).fst.success = false ∧
      (update_appointment db aid u).snd = db) ∧
    (∀ existing rest, db.rows.filter (fun a => a.id == aid) = existing :: rest →
      scheduleTouched u = true →
      (mergedCheck db aid u existing).available = false →
      (update_appointment db aid u).fst.success = false ∧
      (update_appointment db aid u).snd = db) := by
  refine ⟨?_, ?_, ?_, ?_, ?_⟩
  · intro hnone
    rw [check_time_slot_conflict, hnone]
    exact ⟨rfl, rfl⟩
  · intro hfail
    cases hmt : minutesOfTime time with
    | none =>
      rw [check_time_slot_conflict, hmt]
      exact ⟨rfl, rfl⟩
    | some s =>
      rw [check_time_slot_conflict, hmt]
      dsimp only
      rw [if_pos hfail]
      exact ⟨rfl, rfl⟩
  · intro hcc
    rw [create_appointment]
    by_cases hv : (validate_appointment_time d.time).valid = false
    · rw [if_pos hv]
      exact ⟨rfl, rfl⟩
    · rw [if_neg hv, if_pos hcc]
      exact ⟨rfl, rfl⟩
  · intro hfail
    rw [update_appointment, if_pos hfail]
    exact ⟨rfl, rfl⟩
  · intro existing rest hf hst hcc
    by_cases hqf : db.queryFails = true
    · rw [update_appointment, if_pos hqf]
      exact ⟨rfl, rfl⟩
    · rw [update_appointment, if_neg hqf, hf]
      dsimp only
      cases hut : u.time with
      | none =>
        dsimp only
        rw [if_neg (by decide : ¬(true = false)), if_pos hst, if_pos hcc]
        exact ⟨rfl, rfl⟩
      | some t =>
        dsimp only
        by_cases hv : (validate_appointment_time t).valid = false
        · rw [if_pos hv]
          exact ⟨rfl, rfl⟩
        · rw [if_neg hv, if_pos hst, if_pos hcc]
          exact ⟨rfl, rfl⟩

/-- C10 witness: a time whose minute field does not parse passes the hours
check but makes the availability check error out, so the create fails and
inserts nothing. -/
theorem C10_check_total_witness :
    (check_time_slot_conflict db1 "Dr. Smith" "2025-12-15" "09:xx" 30 none).available
        = false ∧
    (create_appointment db1 "9"
      { name := "Eve", doctorName := "Dr. Smith", date := "2025-12-15", time := "09:xx",
        duration := 30, status := none, mode := none, notes := none }).fst.success = false := by
  constructor
  · exact ((C10_check_total db1 "Dr. Smith" "2025-12-15" "09:xx" 30 none "9" "1"
      { name := "Eve", doctorName := "Dr. Smith", date := "2025-12-15", time := "09:xx",
        duration := 30, status := none, mode := none, notes := none }
      (durationOnly 5)).1 (by decide)).1
  · exact ((C10_check_total db1 "Dr. Smith" "2025-12-15" "09:xx" 30 none "9" "1"
      { name := "Eve", doctorName := "Dr. Smith", date := "2025-12-15", time := "09:xx",
        duration := 30, status := none, mode := none, notes := none }
      (durationOnly 5)).2.2.1 (by decide)).1

/-- A create payload with an in-hours time for an otherwise empty doctor and
date; its duration and status are varied by the C6 and C7 theorems. -/
def zedData : CreateData :=
  { name := "Zed", doctorName := "Dr. Jones", date := "2025-12-16", time := "09:00",
    duration := 0, status := none, mode := none, notes := none }

/-- C6 counterexample: a create with duration 0 passes every check and is
persisted, so the store does not only hold appointments with positive
duration. -/
theorem C6_counterexample :
    (create_appointment emptyDb "1" zedData).fst.success = true ∧
    (create_appointment emptyDb "1" zedData).snd.rows.map Appointment.duration = [0] := by
  decide

/-- C6 amended: neither create nor update validates the duration — only
business hours and conflicts are checked — so an appointment with zero or
negative duration is accepted and persisted by both paths. -/
theorem C6_amended_no_duration_check (d : Int) :
    (create_appointment emptyDb "1" { zedData with duration := d }).fst.success = true ∧
    (create_appointment emptyDb "1" { zedData with duration := d }).snd.rows.map
        Appointment.duration = [d] ∧
    (update_appointment db1 "1" (durationOnly d)).fst.success = true ∧
    (update_appointment db1 "1" (durationOnly d)).snd.rows.map
        Appointment.duration = [d] := by
  exact ⟨rfl, rfl, rfl, rfl⟩

/-- An update payload supplying only `status`. -/
def statusOnly (st : String) : UpdateData :=
  { name := none, doctorName := none, date := none, time := none,
    duration := none, status := some st, mode := none, notes := none }

/-- C7 counterexample: create performs no status validation, so a status
outside the four enum values is persisted. -/
theorem C7_counterexample :
    (create_appointment emptyDb "1"
      { zedData with duration := 30, status := some "NotAStatus" }).fst.success = true ∧
    (create_appointment emptyDb "1"
      { zedData with duration := 30, status := some "NotAStatus" }).snd.rows.map
        Appointment.status = ["NotAStatus"] := by
  decide

/-- C7 amended: only the status-only update validates the enum (rejecting
everything outside the four values with the store untouched, and accepting any
of the four); create persists any supplied status string, defaulting to
Scheduled, and the field-patch update also persists any status string. -/
theorem C7_amended_enum_only_on_status_route (st : String) :
    (valid_statuses.contains st = false → ∀ (now : String) (db : Db) (aid : String),
      (update_appointment_status now db aid st).fst.success = false ∧
      (update_appointment_status now db aid st).snd = db) ∧
    (valid_statuses.contains st = true →
      (update_appointment_status "T" db1 "1" st).fst.success = true ∧
      (update_appointment_status "T" db1 "1" st).fst.status = some st) ∧
    (create_appointment emptyDb "1"
      { zedData with duration := 30, status := some st }).snd.rows.map
        Appointment.status = [st] ∧
    (create_appointment emptyDb "1"
      { zedData with duration := 30, status := none }).snd.rows.map
        Appointment.status = ["Scheduled"] ∧
    (update_appointment db1 "1" (statusOnly st)).fst.success = true ∧
    (update_appointment db1 "1" (statusOnly st)).snd.rows.map
        Appointment.status = [st] := by
  refine ⟨?_, ?_, rfl, rfl, rfl, rfl⟩
  · intro hbad now db aid
    rw [update_appointment_status, if_pos (by rw [hbad]; decide)]
    exact ⟨rfl, rfl⟩
  · intro hok
    rw [update_appointment_status, if_neg (by rw [hok]; decide),
      if_neg (by decide : ¬(db1.queryFails = true))]
    dsimp only
    rw [if_pos (by decide : (db1.rows.filter (fun a => a.id == "1")).length > 0)]
    exact ⟨rfl, rfl⟩

/-- A second doctor and date shared by two stored rows, held in store order
with the later slot first. -/
def bobLate : Appointment :=
  { id := "B", patient_name := "Bob", doctor_name := "Dr. Smith", date := "2025-12-15",
    time := "10:00:00", duration := 30, status := "Scheduled", mode := "In-Person", notes := "" }

/-- The earlier 09:00 slot, stored after `bobLate`. -/
def annEarly : Appointment :=
  { id := "A", patient_name := "Ann", doctor_name := "Dr. Smith", date := "2025-12-15",
    time := "09:00:00", duration := 30, status := "Scheduled", mode := "In-Person", notes := "" }

/-- A store whose rows for the doctor and date are not in ascending time
order: Bob's 10:00 row precedes Ann's 09:00 row. -/
def dbLateFirst : Db := { rows := [bobLate, annEarly], queryFails := false }

/-- C8 counterexample: a candidate 09:00 + 120 min overlaps both stored rows,
yet the reported conflict is Bob's 10:00 row — the first in store order — not
Ann's earlier-starting 09:00 row, so the scan is not in ascending time
order. -/
theorem C8_counterexample :
    (check_time_slot_conflict dbLateFirst "Dr. Smith" "2025-12-15" "09:00" 120
        none).conflicting_appointment
      = some { patient := "Bob", time := "10:00", endTime := "10:30", duration := 30 } ∧
    annEarly ∈ candidateRows dbLateFirst "Dr. Smith" "2025-12-15" none ∧
    overlapsCandidate 540 660 annEarly = true ∧
    minutesOfTime (pyTake annEarly.time 5) = some 540 ∧
    minutesOfTime (pyTake bobLate.time 5) = some 600 := by
  decide

/-- C8 amended: the conflict query carries no ORDER BY, so the scan walks the
rows in query-result (store) order and the reported conflict is the first
overlapping row in that order — deterministic for fixed store contents and
order, but not necessarily the appointment with the earliest start time. -/
theorem C8_amended_first_in_store_order (db : Db) (doctor date time : String) (dur s : Int)
    (hp : minutesOfTime time = some s) (hq : db.queryFails = false)
    (hall : ∀ a ∈ candidateRows db doctor date none,
      (minutesOfTime (pyTake a.time 5)).isSome = true) :
    (check_time_slot_conflict db doctor date time dur none).conflicting_appointment
      = ((candidateRows db doctor date none).find?
          (overlapsCandidate s (s + dur))).map conflictInfoOf := by
  rw [check_spec db doctor date time dur none s hp hq hall]
  cases h : (candidateRows db doctor date none).find? (overlapsCandidate s (s + dur)) <;> rfl

/-- C8 amended witness: on the out-of-order store the reported conflict is
exactly the first overlapping row in store order. -/
theorem C8_amended_first_in_store_order_witness :
    (check_time_slot_conflict dbLateFirst "Dr. Smith" "2025-12-15" "09:00" 120
        none).conflicting_appointment
      = ((candidateRows dbLateFirst "Dr. Smith" "2025-12-15" none).find?
          (overlapsCandidate 540 660)).map conflictInfoOf :=
  C8_amended_first_in_store_order dbLateFirst "Dr. Smith" "2025-12-15" "09:00" 120 540
    (by decide) (by decide) (by decide)

end EMR
